import Mathlib

/-!
Verification development for the Codex prompt-driven compiler.

The Python source is embedded shallowly: Python strings become `List Char`
(`PyStr`), Python lists become `List`, dictionaries become association lists,
exceptions become `Except`/`Option PyError` results, and in-place mutation of
the compiler object becomes explicit state passing.  Machine floats appear only
as the configuration temperature, which is modelled by `ℚ` (the comparisons in
the source are exact order comparisons).  Each definition is annotated with the
source file and function it translates.
-/

namespace Codex

/-! ### Python-semantics primitives -/

/-- Python `str` values, modelled as lists of characters. -/
abbrev PyStr := List Char

/-- Convert a Lean string literal to a `PyStr`. -/
def pystr (s : String) : PyStr := s.toList

/-- Python exceptions that the embedded code can raise. -/
inductive PyError where
  | valueError
  | typeError
  | attributeError
  | assertionError
  | exception
deriving DecidableEq, Repr

/-- Python `s.replace("\r\n", "\n")`: left-to-right, non-overlapping. -/
def pyReplaceCRLF : List Char → List Char
  | [] => []
  | '\r' :: '\n' :: rest => '\n' :: pyReplaceCRLF rest
  | c :: rest => c :: pyReplaceCRLF rest

/-- Python `s.split("\n")`: splitting the empty string yields `[""]`. -/
def pySplitNL : List Char → List (List Char)
  | [] => [[]]
  | '\n' :: rest => [] :: pySplitNL rest
  | c :: rest =>
    match pySplitNL rest with
    | l :: ls => (c :: l) :: ls
    | [] => [[c]]

/-- ASCII lower-casing, the fragment of Python `str.lower` our inputs use. -/
def asciiLower (c : Char) : Char :=
  if 'A' ≤ c ∧ c ≤ 'Z' then Char.ofNat (c.toNat + 32) else c

/-- Python `s.lower()` on ASCII text. -/
def pyLower (s : PyStr) : PyStr := s.map asciiLower

/-- Python `s.startswith(p)`. -/
def pyStartsWith : List Char → List Char → Bool
  | _, [] => true
  | [], _ :: _ => false
  | c :: s, p :: ps => c == p && pyStartsWith s ps

/-- Python whitespace characters matched by `\s` and removed by `str.strip`
(ASCII range). -/
def isPySpace (c : Char) : Bool :=
  c == ' ' || c == '\t' || c == '\n' || c == '\r' || c == '\x0b' || c == '\x0c'

/-- Python word characters matched by `\w` (ASCII range). -/
def isPyWordChar (c : Char) : Bool :=
  ('a' ≤ c && c ≤ 'z') || ('A' ≤ c && c ≤ 'Z') || ('0' ≤ c && c ≤ '9') || c == '_'

/-- Python `s.strip()` (ASCII whitespace). -/
def pyStrip (s : PyStr) : PyStr :=
  ((s.dropWhile isPySpace).reverse.dropWhile isPySpace).reverse

/-- Python list indexing `l[i]`: non-negative indices from the front, negative
indices from the back, `none` models the `IndexError` raised otherwise. -/
def pyListGet {α : Type} (l : List α) (i : Int) : Option α :=
  if 0 ≤ i then l.get? i.toNat
  else if 0 ≤ i + l.length then l.get? (i + l.length).toNat
  else none

/-! ### Source text abstraction — `codex/parser/source.py` -/

/-- `CodexSource`: the normalized, line-indexed program text. -/
structure CodexSource where
  content : PyStr
  lines : List PyStr
  path : Option PyStr
deriving DecidableEq, Repr

/-- `CodexSource.__init__`: normalize Windows line endings, split into lines. -/
def CodexSource.init (from_string : PyStr) (path : Option PyStr) : CodexSource :=
  let s := pyReplaceCRLF from_string
  ⟨s, pySplitNL s, path⟩

/-- `CodexSource.from_string`. -/
def CodexSource.from_string (s : PyStr) : CodexSource := CodexSource.init s none

/-- `CodexSource.get_line_by_index`: bare Python list indexing `self._lines[index]`. -/
def CodexSource.get_line_by_index (src : CodexSource) (index : Int) : Option PyStr :=
  pyListGet src.lines index

/-- `CodexSource.get_line_by_number`: `self._lines[number - 1]`. -/
def CodexSource.get_line_by_number (src : CodexSource) (number : Int) : Option PyStr :=
  pyListGet src.lines (number - 1)

/-- `CodexSource.get_line_count`. -/
def CodexSource.get_line_count (src : CodexSource) : Nat := src.lines.length

/-- `CodexSource.is_line_number_valid`: `number > 0 and number <= count`. -/
def CodexSource.is_line_number_valid (src : CodexSource) (number : Int) : Bool :=
  number > 0 && number ≤ (src.lines.length : Int)

/-- `CodexSource.is_line_index_valid`: `index >= 0 and index < count`. -/
def CodexSource.is_line_index_valid (src : CodexSource) (index : Int) : Bool :=
  index ≥ 0 && index < (src.lines.length : Int)

/-! ### Target registry and configuration — `codex/compiler/targets/__init__.py`,
`codex/compiler/config.py` -/

/-- The names of the registered language bindings, in registration order
(`LANGUAGE_REGISTRY` holds the single `PythonLanguageBinding`, named
`python3`). -/
def LANGUAGE_REGISTRY_NAMES : List PyStr := [pystr "python3"]

/-- `is_language_supported`: case-insensitive lookup in the registry. -/
def is_language_supported (language_name : PyStr) : Bool :=
  LANGUAGE_REGISTRY_NAMES.any (fun l => pyLower l == pyLower language_name)

/-- `CompilerConfig` (the `verbose` CLI flag is not part of this dataclass in
the source).  The temperature is a Python float compared only with `<` and `>`
against `0.0` and `1.0`; it is modelled as a rational. -/
structure CompilerConfig where
  target_language_name : PyStr
  openai_key : PyStr
  temperature : ℚ

/-- Which of the three `validate_config` rules raised `CompilerConfigError`. -/
inductive ConfigError where
  | languageNotSupported
  | noApiKey
  | temperatureOutOfRange
deriving DecidableEq, Repr

/-- `validate_config`: three checks performed in source order, first failure
raises.  `not config.openai_key` is true exactly for the empty string. -/
def validate_config (config : CompilerConfig) : Option ConfigError :=
  if ¬ is_language_supported config.target_language_name then
    some ConfigError.languageNotSupported
  else if config.openai_key = [] then
    some ConfigError.noApiKey
  else if config.temperature < 0 ∨ config.temperature > 1 then
    some ConfigError.temperatureOutOfRange
  else
    none

/-! ### Type registry — `codex/lang/types.py` -/

/-- `UKNOWN_NUM_GENERIC` (the typo is the source's). -/
def UKNOWN_NUM_GENERIC : Int := -1

/-- `TypeBase`: `id` values are statically written constants in the source
(0 through 7), not generated identifiers.  The field typo `primitve` is the
source's. -/
structure TypeBase where
  id : Int
  name : PyStr
  primitve : Bool
  num_generic_args : Int
deriving DecidableEq, Repr

/-- `TypeBase.__eq__`: `self.id == other.id` only. -/
def TypeBase.eq (a b : TypeBase) : Bool := a.id == b.id

/-- `Type`: a base type, a user-defined name and generic parameters. -/
inductive PyType where
  | mk (base_type : TypeBase) (user_defined_name : PyStr)
      (generic_parameters : List PyType)

/-- The `base_type` field of a `Type`. -/
def PyType.base_type : PyType → TypeBase
  | .mk b _ _ => b

/-- The `user_defined_name` field of a `Type`. -/
def PyType.user_defined_name : PyType → PyStr
  | .mk _ n _ => n

mutual

/-- `Type.__eq__`: compares `base_type` (by `TypeBase.__eq__`, i.e. by `id`)
and `generic_parameters` (Python list equality, elementwise); the
`user_defined_name` is not consulted. -/
def typeEq : PyType → PyType → Bool
  | .mk b1 _ g1, .mk b2 _ g2 => TypeBase.eq b1 b2 && typeListEq g1 g2

/-- Python `==` on two lists of `Type` values. -/
def typeListEq : List PyType → List PyType → Bool
  | [], [] => true
  | t1 :: r1, t2 :: r2 => typeEq t1 t2 && typeListEq r1 r2
  | _, _ => false

end

/-- `TYPE_UNKNOWN = TypeBase(0, "unknown", False, UKNOWN_NUM_GENERIC)`. -/
def TYPE_UNKNOWN : TypeBase := ⟨0, pystr "unknown", false, UKNOWN_NUM_GENERIC⟩

/-- `TYPE_BOOL = TypeBase(1, "bool", True, 0)`. -/
def TYPE_BOOL : TypeBase := ⟨1, pystr "bool", true, 0⟩

/-- `TYPE_INT = TypeBase(2, "int", True, 0)`. -/
def TYPE_INT : TypeBase := ⟨2, pystr "int", true, 0⟩

/-- `TYPE_FLOAT = TypeBase(3, "float", True, 0)`. -/
def TYPE_FLOAT : TypeBase := ⟨3, pystr "float", true, 0⟩

/-- `TYPE_STRING = TypeBase(4, "string", True, 0)`. -/
def TYPE_STRING : TypeBase := ⟨4, pystr "string", true, 0⟩

/-- `TYPE_ARRAY = TypeBase(5, "array", False, 1)`. -/
def TYPE_ARRAY : TypeBase := ⟨5, pystr "array", false, 1⟩

/-- `TYPE_MAP = TypeBase(6, "map", False, 2)`. -/
def TYPE_MAP : TypeBase := ⟨6, pystr "map", false, 2⟩

/-- `TYPE_USER_DEFINED = TypeBase(7, "user_defined", False, UKNOWN_NUM_GENERIC)`. -/
def TYPE_USER_DEFINED : TypeBase := ⟨7, pystr "user_defined", false, UKNOWN_NUM_GENERIC⟩

/-- `UserDefined = lambda name: Type(TYPE_USER_DEFINED, user_defined_name=name)`
(the well-typed construction path, which does not trip the dynamic check). -/
def UserDefined (name : PyStr) : PyType := .mk TYPE_USER_DEFINED name []

/-- A value passed to `Type.__init__` as its `base_type` argument.  Python does
not stop `codex/lang/std.py` from passing a `str` here. -/
inductive PyBaseArg where
  | base (tb : TypeBase)
  | str (s : PyStr)

/-- `Type.__init__`.  The validation line evaluates
`base_type == TYPE_USER_DEFINED`; when `base_type` is a `str`, `str.__eq__`
returns `NotImplemented` and Python falls back to the reflected
`TypeBase.__eq__(TYPE_USER_DEFINED, base_type)`, whose body `self.id == other.id`
reads `.id` off the string and raises `AttributeError`.  When `base_type` is a
`TypeBase`, an empty user-defined name on `TYPE_USER_DEFINED` raises the
source's explicit `Exception`. -/
def Type_init (base_type : PyBaseArg) (user_defined_name : PyStr)
    (generic_parameters : List PyType) : Except PyError PyType :=
  match base_type with
  | .str _ => .error .attributeError
  | .base tb =>
    if TypeBase.eq tb TYPE_USER_DEFINED && user_defined_name == [] then
      .error .exception
    else
      .ok (.mk tb user_defined_name generic_parameters)

/-- The module-level names actually defined by `codex/lang/types.py`, in order.
`codex/compiler/compiler.py` tries to import `BASE_TYPES` from this module. -/
def typesModuleDefs : List String :=
  ["UKNOWN_NUM_GENERIC", "TypeBase", "Type", "TYPE_UNKNOWN", "TYPE_BOOL",
   "TYPE_INT", "TYPE_FLOAT", "TYPE_STRING", "TYPE_ARRAY", "TYPE_MAP",
   "TYPE_USER_DEFINED", "Unknown", "Int", "Float", "Bool", "String", "Array",
   "Map", "UserDefined", "construct_generic"]

/-- The module-level names defined by `codex/parser/ast.py`, in order.
`codex/compiler/compiler.py` tries to import `PromptedFunctionDeclarationNode`
from this module. -/
def astModuleDefs : List String :=
  ["SymbolName", "Location", "ASTNode", "PromptData", "PromptNode",
   "ActionStatementNode", "VariableDeclarationNode", "UsingDirectiveNode",
   "CodeBlock", "Module"]

/-- The attributes a `Type` instance actually has (`codex/lang/types.py`);
`Compiler._register_custom_type` reads `type.name`, which is not among them. -/
def typeInstanceAttrs : List String :=
  ["base_type", "user_defined_name", "generic_parameters"]

/-! ### Prompt / token-budget management — `codex/openai/prompts.py`

The GPT-2 subword tokenizer is an external dependency; the truncation logic is
verified for every `encode`/`decode` pair, and `charEncode`/`charDecode`
(one token per character) instantiate them in concrete evaluations. -/

/-- One token per character: a concrete stand-in for `TOKENIZER.encode`. -/
def charEncode (s : PyStr) : List Nat := s.map Char.toNat

/-- Inverse of `charEncode`: a concrete stand-in for `TOKENIZER.decode`. -/
def charDecode (l : List Nat) : PyStr := l.map Char.ofNat

/-- `CompletionPrompt.truncate_prompt`'s while loop: pop tokens from the front
while more than `max_tokens` remain. -/
def completion_trunc_loop (max_tokens : Nat) : List Nat → List Nat
  | [] => []
  | t :: rest =>
    if rest.length + 1 > max_tokens then completion_trunc_loop max_tokens rest
    else t :: rest

/-- `CompletionPrompt.truncate_prompt`: encode, no-op when within budget, else
pop from the front and re-decode. -/
def CompletionPrompt.truncate_prompt (encode : PyStr → List Nat)
    (decode : List Nat → PyStr) (p : PyStr) (max_tokens : Nat) : PyStr :=
  let token_ids := encode p
  if token_ids.length ≤ max_tokens then p
  else decode (completion_trunc_loop max_tokens token_ids)

/-- First while loop of `InsertionPrompt.truncate_prompt`: pop tokens from the
front of the prefix while the combined count exceeds the budget and the prefix
is above its minimum. -/
def insertion_trunc_loop1 (max_tokens min_pre suf_len : Nat) :
    List Nat → List Nat
  | [] => []
  | t :: rest =>
    if (rest.length + 1) + suf_len > max_tokens && rest.length + 1 > min_pre then
      insertion_trunc_loop1 max_tokens min_pre suf_len rest
    else t :: rest

/-- Second while loop of `InsertionPrompt.truncate_prompt`.  The source pops
`suffix_tokens.pop(0)` — the FRONT of the suffix — although its own comment
says "remove tokens from the end of the suffix". -/
def insertion_trunc_loop2 (max_tokens min_suf pre_len : Nat) :
    List Nat → List Nat
  | [] => []
  | t :: rest =>
    if pre_len + (rest.length + 1) > max_tokens && rest.length + 1 > min_suf then
      insertion_trunc_loop2 max_tokens min_suf pre_len rest
    else t :: rest

/-- `InsertionPrompt.truncate_prompt`: no-op within budget; `ValueError` when
the two minimums exceed the budget; otherwise run the two loops in order. -/
def InsertionPrompt.truncate_prompt (encode : PyStr → List Nat)
    (decode : List Nat → PyStr) (pre suf : PyStr)
    (min_pre_tokens min_suf_tokens max_tokens : Nat) :
    Except PyError (PyStr × PyStr) :=
  let pre_tokens := encode pre
  let suf_tokens := encode suf
  if pre_tokens.length + suf_tokens.length ≤ max_tokens then .ok (pre, suf)
  else if min_pre_tokens + min_suf_tokens > max_tokens then .error .valueError
  else
    let pre' := insertion_trunc_loop1 max_tokens min_pre_tokens
      suf_tokens.length pre_tokens
    let suf' := insertion_trunc_loop2 max_tokens min_suf_tokens
      pre'.length suf_tokens
    .ok (decode pre', decode suf')

/-! ### Standard module registry — `codex/lang/std.py` -/

/-- `StandardModule` (the `description` and `keywords` fields, which no claim
touches, are omitted).  `module_types` is the `module_types` list. -/
structure StandardModule where
  name : PyStr
  include_by_default : Bool
  module_types : List PyType

/-- Stand-in for `StdLibTypes.Array`.  The source writes `Type("array")`, a
call that raises `AttributeError` (see `Type_init`); the catalog therefore
never finishes constructing in Python.  The embedded catalog carries a
user-defined-style value of the intended name; no property proved below
depends on its contents, because `_register_custom_type` faults on every
`Type` value (see `_register_custom_type`). -/
def StdLibTypes_Array : PyType := UserDefined (pystr "array")

/-- Stand-in for `StdLibTypes.Matrix` (`Type("matrix")` in the source); see
`StdLibTypes_Array`. -/
def StdLibTypes_Matrix : PyType := UserDefined (pystr "matrix")

/-- The `StandardLibrary` catalog, in class-body definition order (the order
`StandardLibrary.__dict__.values()` iterates). -/
def StandardLibrary_modules : List StandardModule :=
  [⟨pystr "array", true, [StdLibTypes_Array]⟩,
   ⟨pystr "math", true, []⟩,
   ⟨pystr "fs", false, []⟩,
   ⟨pystr "json", false, []⟩,
   ⟨pystr "random", false, []⟩,
   ⟨pystr "linalg", false, [StdLibTypes_Matrix]⟩]

/-- `get_standard_module`: first catalog entry with the given wire name. -/
def get_standard_module (name : PyStr) : Option StandardModule :=
  StandardLibrary_modules.find? (fun m => m.name == name)

/-! ### Language binding layer — `codex/compiler/language_binding.py`,
`codex/compiler/targets/python.py` -/

/-- `ModuleBinding` (its `type_bindings` mapping, unused by the compiler
pipeline, is omitted). -/
structure ModuleBinding where
  analogous_module : Option PyStr
  polyfill : Option PyStr

/-- `StandardLibraryBinding`: explicit per-module bindings keyed by module
name, plus the unsupported set.  Standard modules are singletons hashed and
compared by identity in Python, so keying by wire name is faithful. -/
structure StandardLibraryBinding where
  module_bindings : List (PyStr × ModuleBinding)
  unsupported_modules : List PyStr

/-- `StandardLibraryBinding.is_module_supported`:
`module not in self._unsupported_modules`. -/
def StandardLibraryBinding.is_module_supported (b : StandardLibraryBinding)
    (m : StandardModule) : Bool :=
  !(b.unsupported_modules.contains m.name)

/-- `StandardLibraryBinding.get_module_binding`: `None` when unsupported, the
explicit binding when present, otherwise a default `ModuleBinding(module)` with
no analogous module and no polyfill. -/
def StandardLibraryBinding.get_module_binding (b : StandardLibraryBinding)
    (m : StandardModule) : Option ModuleBinding :=
  if ¬ b.is_module_supported m then none
  else some ((b.module_bindings.lookup m.name).getD ⟨none, none⟩)

/-- `LanguageBinding`: name, extension and standard-library binding, plus the
`generate_import` hook the compiler pipeline calls. -/
structure LanguageBinding where
  name : PyStr
  source_file_extension : PyStr
  stdlib_binding : StandardLibraryBinding
  generate_import : PyStr → PyStr

/-- `PythonLanguageBinding` (`codex/compiler/targets/python.py`): bindings for
`math`, `json`, `random` (analogous modules) and `linalg` (numpy polyfill);
no module is marked unsupported; imports render as `import <module>`. -/
def PythonLanguageBinding : LanguageBinding where
  name := pystr "python3"
  source_file_extension := pystr "py"
  stdlib_binding :=
    ⟨[(pystr "math", ⟨some (pystr "math"), none⟩),
      (pystr "json", ⟨some (pystr "json"), none⟩),
      (pystr "random", ⟨some (pystr "random"), none⟩),
      (pystr "linalg", ⟨none, some (pystr "import numpy as np")⟩)], []⟩
  generate_import := fun m => pystr "import " ++ m

/-! ### Compiler pipeline — `codex/compiler/compiler.py`

A Python exception escaping `compile()` leaves the already-performed mutations
of the `Compiler` object in place, so stateful steps return
`CompilerState × Option PyError` (state so far, exception if one escaped). -/

/-- The mutable per-compilation state of a `Compiler` instance.  Errors and
warnings are `CompilerError(message, node)` pairs in the source; the offending
node, unused by every property below, is dropped and the message kept. -/
structure CompilerState where
  header : PyStr
  program : PyStr
  used_modules : List PyStr
  custom_types : List (PyStr × PyType)
  errors : List PyStr
  warnings : List PyStr

/-- The state right after `Compiler.__init__`. -/
def initCompilerState : CompilerState := ⟨[], [], [], [], [], []⟩

/-- `StringBuilder.writeln` (`codex/util/strings.py`): append text plus one
newline. -/
def StringBuilder.writeln (buf data : PyStr) : PyStr := buf ++ data ++ ['\n']

/-- `Compiler._register_custom_type`.  Its first line reads `type.name`, but a
`Type` instance has no attribute `name` (see `typeInstanceAttrs`), so the call
raises `AttributeError` on every input before reaching its duplicate and
base-type-collision checks (which also reference `BASE_TYPES`, a name
`codex/lang/types.py` never defines — see `typesModuleDefs`). -/
def _register_custom_type (_t : PyType) (s : CompilerState) :
    CompilerState × Option PyError :=
  (s, some .attributeError)

/-- The `for type in module.module_types` loop of `_include_module`; an
exception aborts the loop. -/
def register_types_loop : List PyType → CompilerState →
    CompilerState × Option PyError
  | [], s => (s, none)
  | t :: rest, s =>
    match _register_custom_type t s with
    | (s', some e) => (s', some e)
    | (s', none) => register_types_loop rest s'

/-- `Compiler._include_module`: mark used, then append to the header the
analogous module's import line and the polyfill when present, then register
the module's contributed types.  The `assert binding is not None` failure is
modelled as `assertionError`. -/
def _include_module (b : LanguageBinding) (m : StandardModule)
    (s : CompilerState) : CompilerState × Option PyError :=
  let s1 := { s with used_modules := m.name :: s.used_modules }
  match b.stdlib_binding.get_module_binding m with
  | none => (s1, some .assertionError)
  | some mb =>
    let s2 :=
      match mb.analogous_module with
      | some am =>
        { s1 with header := StringBuilder.writeln s1.header (b.generate_import am) }
      | none => s1
    let s3 :=
      match mb.polyfill with
      | some pf => { s2 with header := StringBuilder.writeln s2.header pf }
      | none => s2
    register_types_loop m.module_types s3

/-- `Compiler._compile_using_directive`: the five-way dispatch, in source
order — unknown module, default-included, unsupported by target, previously
included, include. -/
def _compile_using_directive (b : LanguageBinding) (module_name : PyStr)
    (s : CompilerState) : CompilerState × Option PyError :=
  match get_standard_module module_name with
  | none =>
    ({ s with errors :=
        s.errors ++ [pystr "Unknown module '" ++ module_name ++ pystr "'"] },
     none)
  | some m =>
    if m.include_by_default then
      ({ s with warnings :=
          s.warnings ++
            [pystr "Module '" ++ m.name ++ pystr "' is included by default"] },
       none)
    else if ¬ b.stdlib_binding.is_module_supported m then
      ({ s with errors :=
          s.errors ++
            [pystr "Module '" ++ m.name ++
              pystr "' is not supported by the target language"] },
       none)
    else if s.used_modules.contains m.name then
      ({ s with warnings :=
          s.warnings ++
            [pystr "Module '" ++ m.name ++ pystr "' is already imported."] },
       none)
    else
      _include_module b m s

/-- The startup loop at the top of `Compiler.compile()`: include every
default-included module in catalog order; an exception aborts the loop. -/
def startup_loop (b : LanguageBinding) : List StandardModule → CompilerState →
    CompilerState × Option PyError
  | [], s => (s, none)
  | m :: rest, s =>
    if m.include_by_default then
      match _include_module b m s with
      | (s', some e) => (s', some e)
      | (s', none) => startup_loop b rest s'
    else startup_loop b rest s

/-- Compiler startup: the default-inclusion pass over the catalog. -/
def compiler_startup (b : LanguageBinding) (s : CompilerState) :
    CompilerState × Option PyError :=
  startup_loop b StandardLibrary_modules s

/-! ### Legacy parser — `codex/parser/__init__.py`

This is the `parse` entry point that `codex/__main__.py` pulls in with a
from-codex.parser import of `parse`. -/

/-- The state of a `_Parser`: the line list from `source.split("\n")` after
line-ending normalization, and the zero-based cursor. -/
structure UParserState where
  current_line_idx : Nat
  lines : List PyStr
deriving DecidableEq, Repr

/-- `_Parser.__init__`. -/
def uParserInit (source : PyStr) : UParserState :=
  ⟨0, pySplitNL (pyReplaceCRLF source)⟩

/-- The call `Module()` in `_Parser.parse`.  `Module` inherits
`CodeBlock.__init__(self, location, children=[])` (`codex/parser/ast.py`),
which has one required positional parameter; the call supplies zero arguments,
so Python raises `TypeError` before the parse loop starts. -/
def Module_init_required_args : Nat := 1

/-- Result of calling a Python function that requires `required` positional
arguments with `given` arguments. -/
def pyCallArity (required given : Nat) : Option PyError :=
  if given < required then some .typeError else none

/-- `_Parser.parse_current_line`: returns `None` for a blank line, and — the
body having no further statements — falls off the end and returns `None` for
every other line as well.  It never touches `current_line_idx`. -/
def uParseCurrentLine (_st : UParserState) : Option Unit := none

/-- The `while not self.at_end()` loop of `_Parser.parse`, with fuel: the body
calls `parse_current_line` (which returns `None` and changes nothing) and
appends nothing; no statement in the loop advances `current_line_idx`.
`none` means the loop had not finished within `fuel` iterations. -/
def uParseLoop : Nat → UParserState → List Unit → Option (List Unit)
  | 0, _, _ => none
  | fuel + 1, st, children =>
    if st.current_line_idx ≥ st.lines.length then some children
    else
      match uParseCurrentLine st with
      | some n => uParseLoop fuel st (children ++ [n])
      | none => uParseLoop fuel st children

/-- `_Parser.parse` (hence the module-level `parse(source)`): `Module()` is
evaluated first and raises `TypeError`; with `fuel` bounding the loop should
the constructor ever be repaired. -/
def uParse (fuel : Nat) (source : PyStr) : Option (Except PyError (List Unit)) :=
  match pyCallArity Module_init_required_args 0 with
  | some e => some (.error e)
  | none => (uParseLoop fuel (uParserInit source) []).map .ok

/-! ### Grammar combinator engine — `codex/parser/grammar.py`

`ExpressionMatchError` carries a message used only for diagnostics; the
embedding keeps the exception, not the text.  The engine's `Repeated.match`
loop can in principle run forever on a nullable inner expression, so every
matcher takes fuel; `none` (fuel exhausted) never occurs in the concrete
evaluations below, which pass ample fuel. -/

/-- The `ExpressionMatchError` exception. -/
inductive GErr where
  | matchError
deriving DecidableEq, Repr

/-- `MatchResult`: matched text, named sub-results (a `dict` in insertion
order; group names are unique within one compound), indexed sub-results. -/
inductive GMatch where
  | mk (matched_string : PyStr) (named_groups : List (PyStr × GMatch))
      (indexed_groups : List GMatch)

/-- The `matched_string` field. -/
def GMatch.matched_string : GMatch → PyStr
  | .mk m _ _ => m

/-- The `named_groups` field. -/
def GMatch.named_groups : GMatch → List (PyStr × GMatch)
  | .mk _ n _ => n

/-- The `indexed_groups` field. -/
def GMatch.indexed_groups : GMatch → List GMatch
  | .mk _ _ i => i

/-- `MatchResult.get_named_group`: raises `ValueError` when absent. -/
def GMatch.get_named_group (m : GMatch) (name : PyStr) : Except PyError GMatch :=
  match m.named_groups.lookup name with
  | none => .error .valueError
  | some v => .ok v

/-- `MatchResult.get_named_group_optional`. -/
def GMatch.get_named_group_optional (m : GMatch) (name : PyStr) : Option GMatch :=
  m.named_groups.lookup name

mutual

/-- Grammar expressions.  The three regexes are the only ones the Codex
grammars instantiate: `\s+`, `\w+` and `.{0,}\S.{0,}`. -/
inductive GExpr where
  | lit (literal : PyStr) (case_sensitive : Bool)
  | reWhitespace
  | reSymbol
  | reNonEmptyText
  | compound (components : List GComponent)
  | union (alternatives : List GExpr)
  | repeated (expression : GExpr) (min_count : Nat) (max_count : Option Nat)

/-- `ExprComponent`: an expression, its optional flag and capture-group name. -/
inductive GComponent where
  | mk (expression : GExpr) (optional : Bool) (group_name : Option PyStr)

end

/-- The `expression` field of an `ExprComponent`. -/
def GComponent.expression : GComponent → GExpr
  | .mk e _ _ => e

/-- The `optional` field of an `ExprComponent`. -/
def GComponent.optional : GComponent → Bool
  | .mk _ o _ => o

/-- The `group_name` field of an `ExprComponent`. -/
def GComponent.group_name : GComponent → Option PyStr
  | .mk _ _ g => g

/-- `Literal.match`, the matched-text part.  The case-sensitive branch returns
the literal itself; the case-insensitive branch returns
`string[: len(self.literal) + 1]` — one character more than the literal. -/
def Literal_match (literal : PyStr) (case_sensitive : Bool) (s : PyStr) :
    Option PyStr :=
  if case_sensitive then
    if pyStartsWith s literal then some literal else none
  else
    if pyStartsWith (pyLower s) (pyLower literal) then
      some (s.take (literal.length + 1))
    else none

/-- `re.match(r"\s+", s)`: the maximal whitespace run at the start. -/
def regexWhitespaceMatch (s : PyStr) : Option PyStr :=
  let t := s.takeWhile isPySpace
  if t.isEmpty then none else some t

/-- `re.match(r"\w+", s)`: the maximal word-character run at the start. -/
def regexSymbolMatch (s : PyStr) : Option PyStr :=
  let t := s.takeWhile isPyWordChar
  if t.isEmpty then none else some t

/-- `re.match(r".{0,}\S.{0,}", s)`: `.` excludes the newline, so with `t` the
prefix of `s` before the first newline, the regex matches exactly `t` when `t`
contains a non-whitespace character and fails otherwise. -/
def regexNonEmptyTextMatch (s : PyStr) : Option PyStr :=
  let t := s.takeWhile (fun c => c != '\n')
  if t.any (fun c => !(isPySpace c)) then some t else none

mutual

/-- `Expression.match(string, throw_on_failure)` for each expression kind.
Result: `none` = fuel exhausted; `some (.error _)` = `ExpressionMatchError`
raised; `some (.ok r)` = the Python return value (`r = none` is Python's
`None`). -/
def gMatch : Nat → GExpr → PyStr → Bool → Option (Except GErr (Option GMatch))
  | 0, _, _, _ => none
  | fuel + 1, e, s, throw =>
    match e with
    | .lit l cs =>
      match Literal_match l cs s with
      | some t => some (.ok (some (.mk t [] [])))
      | none => if throw then some (.error .matchError) else some (.ok none)
    | .reWhitespace =>
      match regexWhitespaceMatch s with
      | some t => some (.ok (some (.mk t [] [])))
      | none => if throw then some (.error .matchError) else some (.ok none)
    | .reSymbol =>
      match regexSymbolMatch s with
      | some t => some (.ok (some (.mk t [] [])))
      | none => if throw then some (.error .matchError) else some (.ok none)
    | .reNonEmptyText =>
      match regexNonEmptyTextMatch s with
      | some t => some (.ok (some (.mk t [] [])))
      | none => if throw then some (.error .matchError) else some (.ok none)
    | .compound comps =>
      match gSoftMatch fuel comps s throw [] [] 0 with
      | none => none
      | some (.error err) => some (.error err)
      | some (.ok (res, _)) => some (.ok res)
    | .union alts => gUnionMatch fuel alts s throw
    | .repeated inner mn mx =>
      match gRepeatLoop fuel inner s throw [] [] 0 with
      | none => none
      | some (.error err) => some (.error err)
      | some (.ok (accM, accI, count, _)) =>
        if count < mn then
          if throw then some (.error .matchError) else some (.ok none)
        else
          match mx with
          | some mxv =>
            if count > mxv then
              if throw then some (.error .matchError) else some (.ok none)
            else some (.ok (some (.mk accM [] accI)))
          | none => some (.ok (some (.mk accM [] accI)))

/-- `CompoundExpression.soft_match`'s component loop, carrying the accumulated
matched text, named groups and success count; returns Python's
`SoftMatchResult` (result-or-`None`, parts matched).  A failing non-optional
component with `throw` set raises; without `throw` it yields result `None`
while keeping the count. -/
def gSoftMatch : Nat → List GComponent → PyStr → Bool → PyStr →
    List (PyStr × GMatch) → Nat → Option (Except GErr (Option GMatch × Nat))
  | 0, _, _, _, _, _, _ => none
  | _fuel + 1, [], _, _, accM, accG, count =>
    some (.ok (some (.mk accM accG []), count))
  | fuel + 1, comp :: rest, s, throw, accM, accG, count =>
    match gMatch fuel comp.expression s (throw && !comp.optional) with
    | none => none
    | some (.error err) => some (.error err)
    | some (.ok (some m)) =>
      gSoftMatch fuel rest (s.drop m.matched_string.length) throw
        (accM ++ m.matched_string)
        (match comp.group_name with
         | some g => accG ++ [(g, m)]
         | none => accG)
        (count + 1)
    | some (.ok none) =>
      if comp.optional then gSoftMatch fuel rest s throw accM accG count
      else if throw then some (.error .matchError)
      else some (.ok (none, count))

/-- `UnionExpression.match`: alternatives tried in order, each with
`throw_on_failure=False`; total failure raises when `throw` is set. -/
def gUnionMatch : Nat → List GExpr → PyStr → Bool →
    Option (Except GErr (Option GMatch))
  | 0, _, _, _ => none
  | _fuel + 1, [], _, throw =>
    if throw then some (.error .matchError) else some (.ok none)
  | fuel + 1, alt :: rest, s, throw =>
    match gMatch fuel alt s false with
    | none => none
    | some (.error err) => some (.error err)
    | some (.ok (some m)) => some (.ok (some m))
    | some (.ok none) => gUnionMatch fuel rest s throw

/-- `Repeated.match`'s while loop: the inner expression is matched with the
caller's `throw` flag; each success appends to the accumulated text and the
indexed-group list and consumes input.  Returns (text, indexed groups, count,
remaining input). -/
def gRepeatLoop : Nat → GExpr → PyStr → Bool → PyStr → List GMatch → Nat →
    Option (Except GErr (PyStr × List GMatch × Nat × PyStr))
  | 0, _, _, _, _, _, _ => none
  | fuel + 1, inner, s, throw, accM, accI, count =>
    match gMatch fuel inner s throw with
    | none => none
    | some (.error err) => some (.error err)
    | some (.ok none) => some (.ok (accM, accI, count, s))
    | some (.ok (some m)) =>
      gRepeatLoop fuel inner (s.drop m.matched_string.length) throw
        (accM ++ m.matched_string) (accI ++ [m]) (count + 1)

end

/-- `CompoundExpression.soft_match` as called by `identify_string`
(`throw_on_failure` defaulting to `False`, so no exception can occur). -/
def gSoft (fuel : Nat) (comps : List GComponent) (s : PyStr) :
    Option (Option GMatch × Nat) :=
  match gSoftMatch fuel comps s false [] [] 0 with
  | some (.ok r) => some r
  | _ => none

/-- First loop of `identify_string`: the first candidate whose soft match
succeeded.  Candidates are identified by position; Python returns the object
itself and the caller compares by identity. -/
def idFirstPass (fuel : Nat) (s : PyStr) :
    List (List GComponent) → Nat → Option Nat
  | [], _ => none
  | c :: rest, i =>
    match gSoft fuel c s with
    | some (some _, _) => some i
    | _ => idFirstPass fuel s rest (i + 1)

/-- Second loop of `identify_string`: the candidate with the strictly greatest
component-success count, starting from 0 (so all-zero yields `None`; ties keep
the earlier candidate). -/
def idBestPass (fuel : Nat) (s : PyStr) :
    List (List GComponent) → Nat → Nat → Option Nat → Option Nat
  | [], _, _, best => best
  | c :: rest, i, bestCount, best =>
    let cnt :=
      match gSoft fuel c s with
      | some (_, n) => n
      | none => 0
    if cnt > bestCount then idBestPass fuel s rest (i + 1) cnt (some i)
    else idBestPass fuel s rest (i + 1) bestCount best

/-- `identify_string`: full-match pass, then best-partial-match pass. -/
def identify_string (fuel : Nat) (s : PyStr)
    (candidates : List (List GComponent)) : Option Nat :=
  match idFirstPass fuel s candidates 0 with
  | some i => some i
  | none => idBestPass fuel s candidates 0 0 none

/-! ### Codex grammar definitions — `codex/parser/syntax.py`

Compound expressions are represented by their component lists so that
`identify_string` can consume them directly; `.with_name(...)` calls set only
diagnostic names and are omitted. -/

/-- `WHITESPACE = Regex(r"\s+")`. -/
def WHITESPACE : GExpr := .reWhitespace

/-- `SYMBOL_NAME = Regex(r"\w+")`. -/
def SYMBOL_NAME : GExpr := .reSymbol

/-- `NON_EMPTY_TEXT = Regex(r".{0,}\S.{0,}")`. -/
def NON_EMPTY_TEXT : GExpr := .reNonEmptyText

/-- `COMPONENT_OPT_WHITESPACE`. -/
def COMPONENT_OPT_WHITESPACE : GComponent := .mk WHITESPACE true none

/-- `COMPONENT_REQ_WHITESPACE`. -/
def COMPONENT_REQ_WHITESPACE : GComponent := .mk WHITESPACE false none

/-- `COMPONENT_OPT_TYPE`: an optional compound capturing `type_name` followed
by required whitespace, itself captured as `optional_type`. -/
def COMPONENT_OPT_TYPE : GComponent :=
  .mk
    (.compound
      [.mk SYMBOL_NAME false (some (pystr "type_name")),
       COMPONENT_REQ_WHITESPACE])
    true (some (pystr "optional_type"))

/-- `_AIGenerativeParameterNonLast`. -/
def AIGenerativeParameterNonLast : List GComponent :=
  [COMPONENT_OPT_WHITESPACE,
   .mk SYMBOL_NAME false (some (pystr "symbol_name")),
   COMPONENT_OPT_WHITESPACE,
   .mk (.lit (pystr ",") true) false none]

/-- `_AIGenerativeParameterLast`. -/
def AIGenerativeParameterLast : List GComponent :=
  [COMPONENT_OPT_WHITESPACE,
   .mk SYMBOL_NAME false (some (pystr "symbol_name")),
   COMPONENT_OPT_WHITESPACE]

/-- `_AIGenerativeParametersMultiple`. -/
def AIGenerativeParametersMultiple : List GComponent :=
  [.mk (.lit (pystr "[") true) false none,
   .mk (.repeated (.compound AIGenerativeParameterNonLast) 0 none) false
     (some (pystr "non_last_parameters")),
   .mk (.compound AIGenerativeParameterLast) false
     (some (pystr "last_parameter")),
   .mk (.lit (pystr "]") true) false none]

/-- `_AIGenerativeParametersSingle`. -/
def AIGenerativeParametersSingle : List GComponent :=
  [.mk (.lit (pystr "[") true) false none,
   .mk (.compound AIGenerativeParameterLast) false
     (some (pystr "last_parameter")),
   .mk (.lit (pystr "]") true) false none]

/-- `AIPrompt`: optional parameter list, optional whitespace, a colon, optional
whitespace, then non-empty free text captured as `prompt_text`. -/
def AIPrompt : List GComponent :=
  [.mk
     (.union
       [.compound AIGenerativeParametersMultiple,
        .compound AIGenerativeParametersSingle])
     true (some (pystr "parameters")),
   COMPONENT_OPT_WHITESPACE,
   .mk (.lit (pystr ":") true) false none,
   COMPONENT_OPT_WHITESPACE,
   .mk NON_EMPTY_TEXT false (some (pystr "prompt_text"))]

/-- `COMPONENT_PROMPT`: `AIPrompt` captured as `prompt`. -/
def COMPONENT_PROMPT : GComponent :=
  .mk (.compound AIPrompt) false (some (pystr "prompt"))

/-- `ActionStatement`. -/
def ActionStatement : List GComponent :=
  [.mk (.lit (pystr "!") true) false none,
   COMPONENT_OPT_WHITESPACE,
   COMPONENT_PROMPT]

/-- `VariableDeclaration`: its direct capture-group names are `optional_type`
(with `type_name` nested inside), `symbol_name` and `prompt`. -/
def VariableDeclaration : List GComponent :=
  [.mk (.lit (pystr "var") true) false none,
   COMPONENT_REQ_WHITESPACE,
   COMPONENT_OPT_TYPE,
   .mk SYMBOL_NAME false (some (pystr "symbol_name")),
   COMPONENT_OPT_WHITESPACE,
   COMPONENT_PROMPT]

/-- `UsingDirective`. -/
def UsingDirective : List GComponent :=
  [.mk (.lit (pystr "using") true) false none,
   COMPONENT_REQ_WHITESPACE,
   .mk SYMBOL_NAME false (some (pystr "module_name"))]

/-- `PromptData` (`codex/parser/ast.py`): prompt text and given-symbol list. -/
structure PromptData where
  prompt : PyStr
  given : List PyStr
deriving DecidableEq, Repr

/-- `get_parameter_names` (`codex/parser/syntax.py`): last parameter, then the
repeated non-last parameters, returned non-last-first. -/
def get_parameter_names (parameter_match : GMatch) :
    Except PyError (List PyStr) := do
  let lastp ← parameter_match.get_named_group (pystr "last_parameter")
  let lastSym ← lastp.get_named_group (pystr "symbol_name")
  let nonLast ←
    match parameter_match.get_named_group_optional (pystr "non_last_parameters") with
    | some nl =>
      nl.indexed_groups.mapM
        (fun g => (g.get_named_group (pystr "symbol_name")).map
          (·.matched_string))
    | none => pure []
  pure (nonLast ++ [lastSym.matched_string])

/-- `extract_prompt`: prompt text plus given-list (`given or []` maps an empty
list to the empty list). -/
def extract_prompt (m : GMatch) : Except PyError PromptData := do
  let text ← m.get_named_group (pystr "prompt_text")
  match m.get_named_group_optional (pystr "parameters") with
  | some pm => do
    let given ← get_parameter_names pm
    pure ⟨text.matched_string, given⟩
  | none => pure ⟨text.matched_string, []⟩

/-- `extract_module_name`. -/
def extract_module_name (m : GMatch) : Except PyError PyStr :=
  (m.get_named_group (pystr "module_name")).map (·.matched_string)

/-! ### Parser — `codex/parser/parser.py`

`Location` objects (source reference plus line number) are attached to nodes
for diagnostics only and are dropped from the node model. -/

/-- AST statement nodes (`codex/parser/ast.py`). -/
inductive ASTNodeM where
  | actionStatement (prompt : PromptData)
  | variableDeclaration (variable_name : PyStr) (type_name : Option PyStr)
      (prompt : PromptData)
  | usingDirective (module_name : PyStr)
deriving DecidableEq, Repr

/-- `is_blank_string`: `s.strip() == ""`. -/
def is_blank_string (s : PyStr) : Bool := pyStrip s == []

/-- The syntax errors `parse_current_line` can raise. -/
inductive SynErrKind where
  | mixedIndentation
  | unexpectedIndentation
  | unrecognizedToken (token : PyStr)
  | expressionMatchError
deriving DecidableEq, Repr

/-- The character scan of `get_indentation_of_current_line`: mode 0 =
unassigned, 1 = spaces, 2 = tabs. -/
def indentation_loop : List Char → Nat → Nat → Except SynErrKind Nat
  | [], level, _ => .ok level
  | c :: rest, level, mode =>
    if c == ' ' then
      if mode == 2 then .error .mixedIndentation
      else indentation_loop rest (level + 1) 1
    else if c == '\t' then
      if mode == 1 then .error .mixedIndentation
      else indentation_loop rest (level + 1) 2
    else .ok level

/-- `get_indentation_of_current_line`: the indentation level and the line with
the indentation removed. -/
def get_indentation_of_line (line : PyStr) : Except SynErrKind (Nat × PyStr) :=
  match indentation_loop line 0 0 with
  | .error e => .error e
  | .ok level => .ok (level, line.drop level)

/-- Python `line.split(' ')[0]`. -/
def pySplitSpaceHead (s : PyStr) : PyStr := s.takeWhile (fun c => c != ' ')

/-- What one call of `parse_current_line` does with its line: a node, no node
(blank/comment), a raised `CodexSyntaxError`, or a raised non-syntax Python
exception escaping the method. -/
inductive ParseOutcome where
  | node (n : ASTNodeM)
  | noNode
  | synError (e : SynErrKind)
  | pyError (e : PyError)
  | fuelExhausted
deriving DecidableEq, Repr

/-- The candidate list `[ActionStatement, VariableDeclaration, UsingDirective]`
passed to `identify_string`. -/
def parse_candidates : List (List GComponent) :=
  [ActionStatement, VariableDeclaration, UsingDirective]

/-- Lines 139–143 of `parser.py`: the action-statement projection. -/
def project_action (m : GMatch) : Except PyError ASTNodeM := do
  let pm ← m.get_named_group (pystr "prompt")
  let pd ← extract_prompt pm
  pure (.actionStatement pd)

/-- Lines 145–152 of `parser.py`: the variable-declaration projection.  It
looks up the named groups `variable_name` and `type_name` on the top-level
match (`get_named_group`, which raises `ValueError` when the group is absent),
then the `prompt` group. -/
def project_variable_declaration (m : GMatch) : Except PyError ASTNodeM := do
  let vn ← m.get_named_group (pystr "variable_name")
  let tn ← m.get_named_group (pystr "type_name")
  let pm ← m.get_named_group (pystr "prompt")
  let pd ← extract_prompt pm
  pure (.variableDeclaration vn.matched_string (some tn.matched_string) pd)

/-- Lines 154–157 of `parser.py`: the using-directive projection. -/
def project_using (m : GMatch) : Except PyError ASTNodeM := do
  let mn ← extract_module_name m
  pure (.usingDirective mn)

/-- Conversion of a projection result to a `ParseOutcome`: the parser's
`try/except` catches only `ExpressionMatchError`, so a `ValueError` raised by
`get_named_group` escapes `parse_current_line`. -/
def outcomeOfExcept : Except PyError ASTNodeM → ParseOutcome
  | .error e => .pyError e
  | .ok n => .node n

/-- `Parser.parse_current_line` on one line at enclosing indentation level
`enclosing_indentation_level` (the driver always passes 0). -/
def parse_current_line (fuel : Nat) (enclosing_indentation_level : Nat)
    (line : PyStr) : ParseOutcome :=
  if is_blank_string line then .noNode
  else
    match get_indentation_of_line line with
    | .error e => .synError e
    | .ok (indentation, trimmed_line) =>
      if pyStartsWith trimmed_line (pystr "//") then .noNode
      else if indentation > enclosing_indentation_level then
        .synError .unexpectedIndentation
      else
        match identify_string fuel trimmed_line parse_candidates with
        | none => .synError (.unrecognizedToken (pySplitSpaceHead trimmed_line))
        | some idx =>
          match gMatch fuel (.compound (parse_candidates.getD idx []))
              trimmed_line true with
          | none => .fuelExhausted
          | some (.error _) => .synError .expressionMatchError
          | some (.ok none) => .pyError .assertionError
          | some (.ok (some m)) =>
            if idx == 0 then outcomeOfExcept (project_action m)
            else if idx == 1 then
              outcomeOfExcept (project_variable_declaration m)
            else if idx == 2 then outcomeOfExcept (project_using m)
            else .pyError .exception

/-- The matched text of a successful plain `match` (no error raising) of a
compound expression, `none` when the match fails: used to state that a line
fully matches a grammar. -/
def match_full (fuel : Nat) (comps : List GComponent) (s : PyStr) :
    Option PyStr :=
  match gMatch fuel (.compound comps) s false with
  | some (.ok (some m)) => some m.matched_string
  | _ => none

/-! ## Helper lemmas -/

/-- The completion-prompt truncation loop is exactly `List.drop` of the excess
from the front. -/
theorem completion_trunc_loop_eq_drop (max_tokens : Nat) (ids : List Nat) :
    completion_trunc_loop max_tokens ids = ids.drop (ids.length - max_tokens) := by
  induction ids with
  | nil => simp [completion_trunc_loop]
  | cons t rest ih =>
    simp only [completion_trunc_loop, List.length_cons]
    by_cases h : rest.length + 1 > max_tokens
    · rw [if_pos h, ih]
      have hlen : rest.length + 1 - max_tokens = (rest.length - max_tokens) + 1 := by
        omega
      rw [hlen, List.drop_succ_cons]
    · rw [if_neg h]
      have hlen : rest.length + 1 - max_tokens = 0 := by
        omega
      rw [hlen, List.drop_zero]

/-- The suffix-side truncation loop of `InsertionPrompt.truncate_prompt`
removes some number of tokens from the front of the suffix. -/
theorem insertion_trunc_loop2_drops_front (max_tokens min_suf pre_len : Nat)
    (st : List Nat) :
    ∃ k, insertion_trunc_loop2 max_tokens min_suf pre_len st = st.drop k := by
  induction st with
  | nil => exact ⟨0, rfl⟩
  | cons t rest ih =>
    by_cases h :
        (pre_len + (rest.length + 1) > max_tokens && rest.length + 1 > min_suf) = true
    · obtain ⟨k, hk⟩ := ih
      refine ⟨k + 1, ?_⟩
      simp only [insertion_trunc_loop2, if_pos h, List.drop_succ_cons]
      exact hk
    · refine ⟨0, ?_⟩
      simp only [insertion_trunc_loop2, List.drop_zero]
      rw [if_neg h]

/-- `register_types_loop` never changes the compiler state (every call of
`_register_custom_type` raises before mutating anything). -/
theorem register_types_loop_fst (ts : List PyType) (s : CompilerState) :
    (register_types_loop ts s).1 = s := by
  cases ts <;> rfl

/-- `_include_module` marks the module used and touches neither the error nor
the warning list, whatever the binding contains and whether or not type
registration raises. -/
theorem include_module_effects (b : LanguageBinding) (m : StandardModule)
    (s : CompilerState) :
    (_include_module b m s).1.used_modules = m.name :: s.used_modules
    ∧ (_include_module b m s).1.errors = s.errors
    ∧ (_include_module b m s).1.warnings = s.warnings := by
  unfold _include_module
  cases hb : b.stdlib_binding.get_module_binding m with
  | none => simp
  | some mb =>
    obtain ⟨am, pf⟩ := mb
    cases am <;> cases pf <;> simp [register_types_loop_fst]

/-! ## Claim theorems -/

/-- C1: the claim says every line fully matching the variable-declaration
grammar is projected to a `VariableDeclarationNode`, with only syntax errors
escaping.  In fact `var int x : store five` fully matches the grammar and
`identify_string` selects it, yet `parse_current_line` raises `ValueError`:
lines 146–147 of `parser.py` look up the named groups `variable_name` and
`type_name`, while the grammar's top-level groups are `optional_type`,
`symbol_name` and `prompt` (the type name sits nested inside `optional_type`),
so `get_named_group` raises, and the parser's `except ExpressionMatchError`
does not catch a `ValueError`. -/
theorem C1_variable_declaration_projection_raises_valueerror :
    match_full 200 VariableDeclaration (pystr "var int x : store five") =
      some (pystr "var int x : store five")
    ∧ identify_string 200 (pystr "var int x : store five") parse_candidates =
      some 1
    ∧ parse_current_line 200 0 (pystr "var int x : store five") =
      ParseOutcome.pyError PyError.valueError := by
  refine ⟨rfl, rfl, rfl⟩

/-- C2: truncating an insertion prompt of an empty prefix and a three-token
suffix to a two-token budget (minimums 0) keeps the trailing two suffix tokens:
`suffix_tokens.pop(0)` removes tokens from the FRONT of the suffix, not from
its back as the claim (and the function's own docstring and comment) state.
The general lemma-shaped conjunct shows the suffix loop always drops a front
segment of the suffix token list. -/
theorem C2_insertion_truncation_pops_suffix_front :
    InsertionPrompt.truncate_prompt charEncode charDecode (pystr "")
      (pystr "abc") 0 0 2 = .ok (pystr "", pystr "bc")
    ∧ pystr "bc" ≠ pystr "ab"
    ∧ (∀ max_tokens min_suf pre_len (st : List Nat),
        ∃ k, insertion_trunc_loop2 max_tokens min_suf pre_len st = st.drop k) := by
  exact ⟨rfl, by decide, insertion_trunc_loop2_drops_front⟩

/-- C3: the claim says every parse entry point, including the one behind the
minimal alternate entry point (`codex/__main__.py` imports `parse` from
`codex/parser/__init__.py`), returns a `Module` after finitely many steps with
a strictly increasing cursor.  In fact that entry point calls `Module()` with
no `location` argument and raises `TypeError` at once — and its
`while not self.at_end()` loop never advances `current_line_idx`, so even with
the constructor repaired no amount of fuel finishes parsing the empty
source. -/
theorem C3_legacy_parse_never_returns_a_module :
    (∀ fuel : Nat, uParse fuel (pystr "") = some (.error PyError.typeError))
    ∧ uParserInit (pystr "") = ⟨0, [[]]⟩
    ∧ (∀ fuel : Nat, uParseLoop fuel ⟨0, [[]]⟩ [] = none) := by
  refine ⟨fun _ => rfl, rfl, fun fuel => ?_⟩
  induction fuel with
  | zero => rfl
  | succ n ih => simpa [uParseLoop, uParseCurrentLine] using ih

/-- C4: the claim says compiler construction plus startup succeeds on any
module and the type-registration error branches are unreachable.  In fact:
`Type("matrix")` in `StdLibTypes` raises `AttributeError` (a `str` flows into
the reflected `TypeBase.__eq__`); `codex/lang/types.py` defines no
`BASE_TYPES` and `codex/parser/ast.py` defines no
`PromptedFunctionDeclarationNode`, so `compiler.py`'s imports fail; a `Type`
instance has no attribute `name`, so `_register_custom_type` raises on every
input; and even granting the imports, startup crashes while default-including
`array`. -/
theorem C4_compiler_startup_faults :
    Type_init (.str (pystr "matrix")) [] [] = .error PyError.attributeError
    ∧ "BASE_TYPES" ∉ typesModuleDefs
    ∧ "PromptedFunctionDeclarationNode" ∉ astModuleDefs
    ∧ "name" ∉ typeInstanceAttrs
    ∧ (∀ t s, _register_custom_type t s = (s, some PyError.attributeError))
    ∧ compiler_startup PythonLanguageBinding initCompilerState =
        ({ initCompilerState with used_modules := [pystr "array"] },
         some PyError.attributeError) := by
  exact ⟨rfl, by decide, by decide, by decide, fun _ _ => rfl, rfl⟩

/-- C5: for every `using M` directive, decided in source order: an unknown
module appends exactly one error; a default-included module exactly one
warning; a module the target marks unsupported exactly one error; an
already-included module exactly one warning; otherwise the module is marked
included.  In every error and warning case the header, program, used-module
set, and the other diagnostic list are left unchanged and no exception
escapes. -/
theorem C5_using_directive_dispatch (b : LanguageBinding) (module_name : PyStr)
    (s : CompilerState) :
    match get_standard_module module_name with
    | none =>
      (_compile_using_directive b module_name s).1.errors.length =
          s.errors.length + 1
      ∧ (_compile_using_directive b module_name s).1.warnings = s.warnings
      ∧ (_compile_using_directive b module_name s).1.header = s.header
      ∧ (_compile_using_directive b module_name s).1.program = s.program
      ∧ (_compile_using_directive b module_name s).1.used_modules =
          s.used_modules
      ∧ (_compile_using_directive b module_name s).2 = none
    | some m =>
      if m.include_by_default = true then
        (_compile_using_directive b module_name s).1.warnings.length =
            s.warnings.length + 1
        ∧ (_compile_using_directive b module_name s).1.errors = s.errors
        ∧ (_compile_using_directive b module_name s).1.header = s.header
        ∧ (_compile_using_directive b module_name s).1.program = s.program
        ∧ (_compile_using_directive b module_name s).1.used_modules =
            s.used_modules
        ∧ (_compile_using_directive b module_name s).2 = none
      else if m.name ∈ b.stdlib_binding.unsupported_modules then
        (_compile_using_directive b module_name s).1.errors.length =
            s.errors.length + 1
        ∧ (_compile_using_directive b module_name s).1.warnings = s.warnings
        ∧ (_compile_using_directive b module_name s).1.header = s.header
        ∧ (_compile_using_directive b module_name s).1.program = s.program
        ∧ (_compile_using_directive b module_name s).1.used_modules =
            s.used_modules
        ∧ (_compile_using_directive b module_name s).2 = none
      else if m.name ∈ s.used_modules then
        (_compile_using_directive b module_name s).1.warnings.length =
            s.warnings.length + 1
        ∧ (_compile_using_directive b module_name s).1.errors = s.errors
        ∧ (_compile_using_directive b module_name s).1.header = s.header
        ∧ (_compile_using_directive b module_name s).1.program = s.program
        ∧ (_compile_using_directive b module_name s).1.used_modules =
            s.used_modules
        ∧ (_compile_using_directive b module_name s).2 = none
      else
        (_compile_using_directive b module_name s).1.used_modules =
            m.name :: s.used_modules
        ∧ (_compile_using_directive b module_name s).1.errors = s.errors
        ∧ (_compile_using_directive b module_name s).1.warnings = s.warnings := by
  cases hm : get_standard_module module_name with
  | none => simp [_compile_using_directive, hm]
  | some m =>
    by_cases hd : m.include_by_default = true
    · simp [_compile_using_directive, hm, hd]
    · by_cases hu : m.name ∈ b.stdlib_binding.unsupported_modules
      · simp [_compile_using_directive, hm, hd, hu,
          StandardLibraryBinding.is_module_supported]
      · by_cases hi : m.name ∈ s.used_modules
        · simp [_compile_using_directive, hm, hd, hu, hi,
            StandardLibraryBinding.is_module_supported]
        · have he := include_module_effects b m s
          simp [_compile_using_directive, hm, hd, hu, hi,
            StandardLibraryBinding.is_module_supported,
            he.1, he.2.1, he.2.2]

/-- C6 counterexample: the claim says two independently constructed type
values sharing the name `matrix` are unequal.  `Type.__eq__` compares only the
base type (by its statically assigned `id`) and the generic parameters, so two
user-defined type values named `matrix` compare equal. -/
theorem C6_same_named_types_compare_equal :
    typeEq (UserDefined (pystr "matrix")) (UserDefined (pystr "matrix")) = true := by
  simp [typeEq, typeListEq, UserDefined, TypeBase.eq]

/-- C6 (amended): equality of type values is decided by the statically
assigned `id` of the base type and by the generic parameters, never by any
name: same-named user-defined types are equal, swapping the user-defined names
never changes a verdict, and `TypeBase` equality is exactly `id` equality. -/
theorem C6_type_equality_ignores_names :
    (∀ n1 n2 : PyStr, typeEq (UserDefined n1) (UserDefined n2) = true)
    ∧ (∀ (b1 b2 : TypeBase) (n1 n2 : PyStr) (g1 g2 : List PyType),
        typeEq (.mk b1 n1 g1) (.mk b2 n2 g2) =
          typeEq (.mk b1 n2 g1) (.mk b2 n1 g2))
    ∧ (∀ a b : TypeBase, TypeBase.eq a b = (a.id == b.id)) := by
  refine ⟨fun n1 n2 => ?_, fun b1 b2 n1 n2 g1 g2 => ?_, fun a b => rfl⟩
  · simp [typeEq, typeListEq, UserDefined, TypeBase.eq]
  · simp [typeEq]

/-- C7: the claim says a successful `Literal` match consumes exactly the
literal's length in both modes.  The case-insensitive branch returns
`string[: len(literal) + 1]`: matching `Literal("ab", case_sensitive=False)`
against `"ABc"` yields a matched string of length 3, one more than the
literal, while the case-sensitive branch behaves as claimed. -/
theorem C7_case_insensitive_literal_consumes_extra_char :
    Literal_match (pystr "ab") false (pystr "ABc") = some (pystr "ABc")
    ∧ (pystr "ABc").length = 3
    ∧ (pystr "ab").length = 2
    ∧ Literal_match (pystr "ab") true (pystr "abc") = some (pystr "ab") := by
  exact ⟨rfl, rfl, rfl, rfl⟩

/-- C8: truncating a completion prompt to a budget at or above its token count
returns the text unchanged; truncating below it re-renders exactly the
trailing `max_tokens` tokens of the original token sequence — the dropped part
is an initial segment, so tokens are removed only from the front, and the
remaining count is `min max_tokens (token count)`, hence within budget.
Stated for every tokenizer `encode`/`decode` pair. -/
theorem C8_completion_truncation_drops_only_front
    (encode : PyStr → List Nat) (decode : List Nat → PyStr) (p : PyStr)
    (max_tokens : Nat) :
    CompletionPrompt.truncate_prompt encode decode p max_tokens =
      (if (encode p).length ≤ max_tokens then p
       else decode ((encode p).drop ((encode p).length - max_tokens)))
    ∧ ((encode p).drop ((encode p).length - max_tokens)).length =
        min max_tokens (encode p).length
    ∧ (encode p).take ((encode p).length - max_tokens) ++
        (encode p).drop ((encode p).length - max_tokens) = encode p := by
  refine ⟨?_, ?_, List.take_append_drop _ _⟩
  · unfold CompletionPrompt.truncate_prompt
    by_cases h : (encode p).length ≤ max_tokens
    · simp [h]
    · simp [h, completion_trunc_loop_eq_drop]
  · rw [List.length_drop]
    omega

/-- C9: `validate_config` reports an error exactly when the target language
does not resolve (case-insensitively), or the API credential is empty, or the
temperature lies outside `[0, 1]`; the three rules are checked in that order
with the first failure winning, and temperatures 0 and 1 validate. -/
theorem C9_validate_config_rules (c : CompilerConfig) :
    (validate_config c = none ↔
      is_language_supported c.target_language_name = true
      ∧ c.openai_key ≠ [] ∧ 0 ≤ c.temperature ∧ c.temperature ≤ 1)
    ∧ (validate_config c = some ConfigError.languageNotSupported ↔
        is_language_supported c.target_language_name = false)
    ∧ (validate_config c = some ConfigError.noApiKey ↔
        is_language_supported c.target_language_name = true
        ∧ c.openai_key = [])
    ∧ (validate_config c = some ConfigError.temperatureOutOfRange ↔
        is_language_supported c.target_language_name = true
        ∧ c.openai_key ≠ []
        ∧ (c.temperature < 0 ∨ c.temperature > 1)) := by
  have hiff : (0 ≤ c.temperature ∧ c.temperature ≤ 1) ↔
      ¬(c.temperature < 0 ∨ c.temperature > 1) := by
    constructor
    · rintro ⟨ha, hb⟩ (h | h) <;> linarith
    · intro h
      push_neg at h
      exact h
  unfold validate_config
  rw [hiff]
  by_cases h1 : is_language_supported c.target_language_name = true
  · rw [if_neg (not_not_intro h1)]
    by_cases h2 : c.openai_key = []
    · rw [if_pos h2]
      exact ⟨by simp [h2], by simp [h1], by simp [h1, h2], by simp [h2]⟩
    · rw [if_neg h2]
      by_cases h3 : c.temperature < 0 ∨ c.temperature > 1
      · rw [if_pos h3]
        exact ⟨by simp [h3], by simp [h1], by simp [h2], by simp [h1, h2, h3]⟩
      · rw [if_neg h3]
        exact ⟨by simp [h1, h2, h3], by simp [h1], by simp [h2], by simp [h3]⟩
  · simp only [Bool.not_eq_true] at h1
    rw [if_pos (by simp [h1])]
    simp [h1]

/-- C10 counterexample: the claim says a lookup at any negative index on a
non-empty source does not fail.  On the one-line source `"a"` the call
`get_line_by_index(-2)` is a bare Python list access at `-2`, below `-1`, and
raises `IndexError` (modelled as `none`). -/
theorem C10_negative_index_can_fail :
    (CodexSource.from_string (pystr "a")).lines ≠ []
    ∧ (CodexSource.from_string (pystr "a")).get_line_by_index (-2) = none := by
  exact ⟨by decide, rfl⟩

/-- C10 (amended): a negative index no smaller than minus the line count does
not fail: it returns the line counted from the end while
`is_line_index_valid` calls it invalid; `get_line_by_number(0)` returns the
last line while `is_line_number_valid 0` is false. -/
theorem C10_negative_index_wraps_from_end (src : CodexSource) (i : Int)
    (h1 : -(src.lines.length : Int) ≤ i) (h2 : i < 0) :
    src.get_line_by_index i = src.lines.get? (i + src.lines.length).toNat
    ∧ src.is_line_index_valid i = false
    ∧ src.get_line_by_number 0 = src.lines.get? (src.lines.length - 1)
    ∧ src.is_line_number_valid 0 = false := by
  refine ⟨?_, ?_, ?_, ?_⟩
  · unfold CodexSource.get_line_by_index pyListGet
    rw [if_neg (by omega), if_pos (by omega)]
  · unfold CodexSource.is_line_index_valid
    simp only [Bool.and_eq_false_iff]
    left
    simp only [ge_iff_le, decide_eq_false_iff_not, not_le]
    exact h2
  · unfold CodexSource.get_line_by_number pyListGet
    rcases Nat.eq_zero_or_pos src.lines.length with hz | hp
    · rw [if_neg (by omega), if_neg (by omega)]
      simp [hz]
    · rw [if_neg (by omega), if_pos (by omega)]
      congr 1
      omega
  · rfl

/-- C10 witness: the amended statement evaluated on the two-line source
`"a\nb"` at index `-1`, whose hypotheses hold by computation. -/
theorem C10_negative_index_wraps_from_end_witness :
    (-(((CodexSource.from_string (pystr "a\nb")).lines.length : Nat) : Int) ≤ -1)
    ∧ ((-1 : Int) < 0)
    ∧ (CodexSource.from_string (pystr "a\nb")).get_line_by_index (-1) =
        some (pystr "b") := by
  refine ⟨by decide, by decide, ?_⟩
  have h := C10_negative_index_wraps_from_end
    (CodexSource.from_string (pystr "a\nb")) (-1) (by decide) (by decide)
  rw [h.1]
  decide

end Codex
